import Mathlib

/-!
Shallow embedding of `src/main.py` (class `CoinGeckoAPI` of the
coingecko-analyser repository) and proofs about it.

Modelling conventions:
* Python values that flow into the database or out of the fetch helpers are
  modelled by `PyVal`: a number, a string, or Python `None`.
* HTTP traffic is modelled by a script (a list) of responses that the
  embedded function consumes in order; a network fault
  (`requests.exceptions.RequestException`) is one kind of scripted event.
* `time.sleep` is modelled by accumulating the slept seconds in the result.
* Dates are modelled as integers counting days, so that the SQLite
  expression `date(now, -21 days)` becomes `now - 21`.
* Fallible Python code is modelled in `Except String`; an `Except.error`
  value is an uncaught Python exception carrying its message.
-/

/-- A Python value as used by the script: a number, a string (for example
the sentinel `"null"`), or `None`. -/
inductive PyVal where
  | num (n : Int)
  | str (s : String)
  | none
deriving DecidableEq, Repr

/-- The arguments of `fetch_token_data` (`vs_currency`, `per_page`, `page`). -/
structure Args where
  vs_currency : String
  per_page : Nat
  page : Nat
deriving DecidableEq, Repr

/-- A scripted event for the market-listings endpoint: either an HTTP
response with a status code, an optional `Retry-After` header (in seconds)
and a body, or a raised `requests.exceptions.RequestException`. -/
inductive MarketResponse where
  | http (status : Nat) (retryAfter : Option Nat) (body : String)
  | requestException
deriving DecidableEq, Repr

/-- Observable outcome of a call to `fetch_token_data`: the returned value
(`some` body on HTTP 200, Python `None` otherwise), the total seconds spent
in `time.sleep`, and the argument tuple of every HTTP request issued, in
order. -/
structure FetchOutcome where
  result : Option String
  slept : Nat
  calls : List Args
deriving DecidableEq, Repr

/-- Embedding of `CoinGeckoAPI.fetch_token_data` (src/main.py lines 12-39).
On 200 it returns the parsed body; on 429 it reads
`int(response.headers.get(Retry-After, 30))`, sleeps that long and retries
itself with the same arguments; on any other status, and on a raised
request exception, it returns `None`. -/
def fetch_token_data (args : Args) : List MarketResponse → FetchOutcome
  | [] => { result := Option.none, slept := 0, calls := [args] }
  | MarketResponse.requestException :: _ =>
    { result := Option.none, slept := 0, calls := [args] }
  | MarketResponse.http status retryAfter _body :: rest =>
    if status = 200 then
      { result := some _body, slept := 0, calls := [args] }
    else if status = 429 then
      let retry_after := retryAfter.getD 30
      let recurse := fetch_token_data args rest
      { result := recurse.result, slept := retry_after + recurse.slept,
        calls := args :: recurse.calls }
    else
      { result := Option.none, slept := 0, calls := [args] }

/-- A scripted event for the per-coin detail endpoint consumed by
`fetch_token_volume`: an HTTP response whose 200 body carries the
`market_data.total_volume` mapping (currency key to value), or a raised
request exception. -/
inductive VolResponse where
  | http (status : Nat) (retryAfter : Option Nat) (total_volume : List (String × Int))
  | requestException
deriving DecidableEq, Repr

/-- Python dictionary lookup `total_volume[\x22usd\x22]` on the mapping,
as an optional value (`Option.none` models a KeyError being raised). -/
def lookupUsd (m : List (String × Int)) : Option Int :=
  (m.find? (fun p => p.1 == "usd")).map Prod.snd

/-- Embedding of `CoinGeckoAPI.fetch_token_volume` (src/main.py lines
113-146). On 200, if the `total_volume` mapping is falsy (empty) the
string `"null"` is returned, otherwise the value at key `usd` (a missing
`usd` key in a non-empty mapping would raise a KeyError, modelled as
`Except.error`); on 429 it sleeps and retries itself; on any other status
and on a request exception it returns `None`. -/
def fetch_token_volume (coin_id : String) : List VolResponse → Except String PyVal
  | [] => Except.ok PyVal.none
  | VolResponse.requestException :: _ => Except.ok PyVal.none
  | VolResponse.http status _retryAfter total_volume :: rest =>
    if status = 200 then
      if total_volume.isEmpty then
        Except.ok (PyVal.str "null")
      else
        match lookupUsd total_volume with
        | some v => Except.ok (PyVal.num v)
        | Option.none => Except.error "KeyError: usd"
    else if status = 429 then
      fetch_token_volume coin_id rest
    else
      Except.ok PyVal.none

/-- C2: a call to `fetch_token_data` that receives an HTTP 429 response
followed by a 200 response sleeps at least the advertised `Retry-After`
duration (30 seconds by default when the header is absent) before retrying
once with the same arguments, and returns the 200 payload. -/
theorem fetch_token_data_retry (args : Args) (retryAfter ra2 : Option Nat)
    (body429 body : String) :
    (fetch_token_data args
      [MarketResponse.http 429 retryAfter body429,
       MarketResponse.http 200 ra2 body]).result = some body
    ∧ retryAfter.getD 30 ≤ (fetch_token_data args
      [MarketResponse.http 429 retryAfter body429,
       MarketResponse.http 200 ra2 body]).slept
    ∧ (retryAfter = Option.none → 30 ≤ (fetch_token_data args
      [MarketResponse.http 429 retryAfter body429,
       MarketResponse.http 200 ra2 body]).slept)
    ∧ (fetch_token_data args
      [MarketResponse.http 429 retryAfter body429,
       MarketResponse.http 200 ra2 body]).calls = [args, args] := by
  refine ⟨rfl, ?_, ?_, rfl⟩
  · simp [fetch_token_data]
  · intro h
    subst h
    simp [fetch_token_data]

/-- Witness for C2 at concrete inputs: with no header the call sleeps the
default 30 seconds, returns the payload and issues exactly two requests. -/
theorem fetch_token_data_retry_witness :
    (fetch_token_data ⟨"usd", 250, 1⟩
      [MarketResponse.http 429 Option.none "",
       MarketResponse.http 200 Option.none "payload"]).result = some "payload"
    ∧ 30 ≤ (fetch_token_data ⟨"usd", 250, 1⟩
      [MarketResponse.http 429 Option.none "",
       MarketResponse.http 200 Option.none "payload"]).slept
    ∧ (fetch_token_data ⟨"usd", 250, 1⟩
      [MarketResponse.http 429 Option.none "",
       MarketResponse.http 200 Option.none "payload"]).calls
      = [⟨"usd", 250, 1⟩, ⟨"usd", 250, 1⟩] := by
  have h := fetch_token_data_retry ⟨"usd", 250, 1⟩ Option.none Option.none "" "payload"
  exact ⟨h.1, h.2.2.1 rfl, h.2.2.2⟩

/-- C8: `fetch_token_data` returns Python `None` (and nothing else, with
no escaping exception) on any non-200, non-429 status and on a raised
request exception. -/
theorem fetch_token_data_error (args : Args) (status : Nat)
    (retryAfter : Option Nat) (body : String) (rest : List MarketResponse)
    (h200 : status ≠ 200) (h429 : status ≠ 429) :
    fetch_token_data args (MarketResponse.http status retryAfter body :: rest)
      = { result := Option.none, slept := 0, calls := [args] }
    ∧ fetch_token_data args (MarketResponse.requestException :: rest)
      = { result := Option.none, slept := 0, calls := [args] } := by
  constructor
  · simp [fetch_token_data, h200, h429]
  · rfl

/-- Witness for C8 at a concrete input: a 500 status yields `None`. -/
theorem fetch_token_data_error_witness :
    fetch_token_data ⟨"usd", 250, 1⟩ [MarketResponse.http 500 Option.none ""]
      = { result := Option.none, slept := 0, calls := [⟨"usd", 250, 1⟩] }
    ∧ fetch_token_data ⟨"usd", 250, 1⟩ [MarketResponse.requestException]
      = { result := Option.none, slept := 0, calls := [⟨"usd", 250, 1⟩] } :=
  fetch_token_data_error ⟨"usd", 250, 1⟩ 500 Option.none "" []
    (by decide) (by decide)

/-- C3: on a 200 response `fetch_token_volume` returns the string
sentinel `"null"` exactly when the `total_volume` mapping is empty,
returns the numeric value at key `usd` otherwise (a present-but-zero value
comes back as the number 0), returns Python `None` on a non-200 non-429
status and on a transport failure, and the three outcomes are pairwise
distinguishable. -/
theorem fetch_token_volume_sentinel (coin_id : String) (retryAfter : Option Nat)
    (tv : List (String × Int)) (rest : List VolResponse) :
    (fetch_token_volume coin_id (VolResponse.http 200 retryAfter tv :: rest)
        = Except.ok (PyVal.str "null") ↔ tv = [])
    ∧ (∀ v : Int, lookupUsd tv = some v →
        fetch_token_volume coin_id (VolResponse.http 200 retryAfter tv :: rest)
          = Except.ok (PyVal.num v))
    ∧ (∀ status : Nat, status ≠ 200 → status ≠ 429 →
        fetch_token_volume coin_id (VolResponse.http status retryAfter tv :: rest)
          = Except.ok PyVal.none)
    ∧ fetch_token_volume coin_id (VolResponse.requestException :: rest)
        = Except.ok PyVal.none
    ∧ (∀ v : Int, PyVal.num v ≠ PyVal.str "null" ∧ PyVal.num v ≠ PyVal.none
        ∧ PyVal.str "null" ≠ PyVal.none) := by
  refine ⟨?_, ?_, ?_, rfl, ?_⟩
  · constructor
    · intro h
      by_contra hne
      have hne2 : tv.isEmpty = false := by
        cases tv with
        | nil => exact absurd rfl hne
        | cons a l => rfl
      rw [show fetch_token_volume coin_id
            (VolResponse.http 200 retryAfter tv :: rest)
          = (if tv.isEmpty then Except.ok (PyVal.str "null")
             else match lookupUsd tv with
              | some v => Except.ok (PyVal.num v)
              | Option.none => Except.error "KeyError: usd") from rfl, hne2] at h
      simp only [Bool.false_eq_true, if_false] at h
      cases hl : lookupUsd tv with
      | none => rw [hl] at h; exact Except.noConfusion h
      | some v =>
        rw [hl] at h
        have := Except.ok.inj h
        exact PyVal.noConfusion this
    · intro h
      subst h
      rfl
  · intro v hv
    have hne2 : tv.isEmpty = false := by
      cases tv with
      | nil => simp [lookupUsd] at hv
      | cons a l => rfl
    rw [show fetch_token_volume coin_id
          (VolResponse.http 200 retryAfter tv :: rest)
        = (if tv.isEmpty then Except.ok (PyVal.str "null")
           else match lookupUsd tv with
            | some v => Except.ok (PyVal.num v)
            | Option.none => Except.error "KeyError: usd") from rfl, hne2, hv]
    simp
  · intro status h200 h429
    simp [fetch_token_volume, h200, h429]
  · intro v
    exact ⟨fun h => PyVal.noConfusion h, fun h => PyVal.noConfusion h,
      fun h => PyVal.noConfusion h⟩

/-- Witness for C3 at concrete inputs: an empty mapping yields the string
sentinel, the mapping with `usd` bound to 0 yields the number 0, and a 500
status yields `None`. -/
theorem fetch_token_volume_sentinel_witness :
    fetch_token_volume "bitcoin" [VolResponse.http 200 Option.none []]
      = Except.ok (PyVal.str "null")
    ∧ fetch_token_volume "bitcoin" [VolResponse.http 200 Option.none [("usd", 0)]]
      = Except.ok (PyVal.num 0)
    ∧ fetch_token_volume "bitcoin" [VolResponse.http 500 Option.none []]
      = Except.ok PyVal.none := by
  have h1 := fetch_token_volume_sentinel "bitcoin" Option.none [] []
  have h2 := fetch_token_volume_sentinel "bitcoin" Option.none [("usd", 0)] []
  exact ⟨h1.1.mpr rfl, h2.2.1 0 rfl, (h1.2.2.1 500 (by decide) (by decide))⟩

/-- Embedding of the insert in the token-list loop (src/main.py lines
64-67 and 104-107): `INSERT INTO tokens VALUES (?, ?)` against the `id`
primary key, with `sqlite3.IntegrityError` swallowed by `pass`, so a
duplicate id leaves the table unchanged. -/
def insertToken (table : List (String × String)) (tid name : String) :
    List (String × String) :=
  if tid ∈ table.map Prod.fst then table else table ++ [(tid, name)]

/-- Embedding of the shared loop of `save_token_list` and
`check_and_update_token_list`: `existing` is the set of ids read before
the loop, and each fetched token is inserted only when its id is not in
that snapshot. -/
def syncLoop (existing : List String) (acc : List (String × String)) :
    List (String × String) → List (String × String)
  | [] => acc
  | tok :: rest =>
    if tok.1 ∈ existing then syncLoop existing acc rest
    else syncLoop existing (insertToken acc tok.1 tok.2) rest

/-- Embedding of `CoinGeckoAPI.save_token_list` (src/main.py lines 41-71)
acting on the `tokens` table, given the token list decoded from a
successful (HTTP 200) listing fetch; on a failed fetch the function
returns with the table untouched, so only the success path is modelled. -/
def save_token_list (table token_list : List (String × String)) :
    List (String × String) :=
  syncLoop (table.map Prod.fst) table token_list

/-- Embedding of `CoinGeckoAPI.check_and_update_token_list` (src/main.py
lines 84-111): the same snapshot-then-insert loop as `save_token_list`. -/
def check_and_update_token_list (table token_list : List (String × String)) :
    List (String × String) :=
  syncLoop (table.map Prod.fst) table token_list

theorem mem_insertToken_of_mem {table : List (String × String)}
    {row : String × String} (h : row ∈ table) (tid name : String) :
    row ∈ insertToken table tid name := by
  unfold insertToken
  split
  · exact h
  · exact List.mem_append_left _ h

theorem insertToken_ids_subset {table : List (String × String)}
    {tid name x : String} (h : x ∈ (insertToken table tid name).map Prod.fst) :
    x ∈ table.map Prod.fst ∨ x = tid := by
  unfold insertToken at h
  split at h
  · exact Or.inl h
  · rw [List.map_append] at h
    rcases List.mem_append.mp h with h1 | h2
    · exact Or.inl h1
    · simp at h2
      exact Or.inr h2

theorem insertToken_ids_mono {table : List (String × String)}
    {x : String} (tid name : String) (h : x ∈ table.map Prod.fst) :
    x ∈ (insertToken table tid name).map Prod.fst := by
  rcases List.mem_map.mp h with ⟨row, hrow, hx⟩
  exact List.mem_map.mpr ⟨row, mem_insertToken_of_mem hrow tid name, hx⟩

theorem insertToken_self_mem (table : List (String × String)) (tid name : String) :
    tid ∈ (insertToken table tid name).map Prod.fst := by
  by_cases hmem : tid ∈ table.map Prod.fst
  · simp [insertToken, hmem]
  · simp [insertToken, hmem]

theorem insertToken_nodup {table : List (String × String)} {tid name : String}
    (h : (table.map Prod.fst).Nodup) :
    ((insertToken table tid name).map Prod.fst).Nodup := by
  by_cases hmem : tid ∈ table.map Prod.fst
  · simp [insertToken, hmem, h]
  · simp [insertToken, hmem, List.nodup_append, h]

theorem mem_syncLoop_of_mem {existing : List String} {row : String × String} :
    ∀ (tl : List (String × String)) (acc : List (String × String)),
    row ∈ acc → row ∈ syncLoop existing acc tl
  | [], _, h => h
  | tok :: rest, acc, h => by
    unfold syncLoop
    split
    · exact mem_syncLoop_of_mem rest acc h
    · exact mem_syncLoop_of_mem rest _ (mem_insertToken_of_mem h tok.1 tok.2)

theorem syncLoop_ids_mono {existing : List String} {x : String}
    (tl acc : List (String × String)) (h : x ∈ acc.map Prod.fst) :
    x ∈ (syncLoop existing acc tl).map Prod.fst := by
  rcases List.mem_map.mp h with ⟨row, hrow, hx⟩
  exact List.mem_map.mpr ⟨row, mem_syncLoop_of_mem tl acc hrow, hx⟩

theorem syncLoop_ids_subset {existing : List String} {x : String} :
    ∀ (tl : List (String × String)) (acc : List (String × String)),
    x ∈ (syncLoop existing acc tl).map Prod.fst →
    x ∈ acc.map Prod.fst ∨ x ∈ tl.map Prod.fst
  | [], _, h => Or.inl h
  | tok :: rest, acc, h => by
    unfold syncLoop at h
    split at h
    · rcases syncLoop_ids_subset rest acc h with h1 | h2
      · exact Or.inl h1
      · exact Or.inr (by simp [h2])
    · rcases syncLoop_ids_subset rest _ h with h1 | h2
      · rcases insertToken_ids_subset h1 with ha | hb
        · exact Or.inl ha
        · exact Or.inr (by simp [hb])
      · exact Or.inr (by simp [h2])

theorem syncLoop_nodup {existing : List String} :
    ∀ (tl : List (String × String)) (acc : List (String × String)),
    (acc.map Prod.fst).Nodup → ((syncLoop existing acc tl).map Prod.fst).Nodup
  | [], _, h => h
  | tok :: rest, acc, h => by
    unfold syncLoop
    split
    · exact syncLoop_nodup rest acc h
    · exact syncLoop_nodup rest _ (insertToken_nodup h)

theorem syncLoop_covers {existing : List String} :
    ∀ (tl : List (String × String)) (acc : List (String × String)),
    (∀ i ∈ existing, i ∈ acc.map Prod.fst) →
    ∀ tok ∈ tl, tok.1 ∈ (syncLoop existing acc tl).map Prod.fst
  | [], _, _, _, htok => absurd htok (List.not_mem_nil _)
  | tok :: rest, acc, hex, t, ht => by
    rcases List.mem_cons.mp ht with rfl | htr
    · unfold syncLoop
      split
      case isTrue hmem => exact syncLoop_ids_mono rest acc (hex t.1 hmem)
      case isFalse hmem =>
        exact syncLoop_ids_mono rest _ (insertToken_self_mem acc t.1 t.2)
    · unfold syncLoop
      split
      · exact syncLoop_covers rest acc hex t htr
      · exact syncLoop_covers rest _
          (fun i hi => insertToken_ids_mono tok.1 tok.2 (hex i hi)) t htr

theorem key_unique :
    ∀ (l : List (String × String)) (tid n1 n2 : String),
    (l.map Prod.fst).Nodup → (tid, n1) ∈ l → (tid, n2) ∈ l → n1 = n2
  | [], _, _, _, _, h1, _ => absurd h1 (List.not_mem_nil _)
  | p :: rest, tid, n1, n2, hnd, h1, h2 => by
    rw [List.map_cons, List.nodup_cons] at hnd
    rcases List.mem_cons.mp h1 with e1 | m1
    · rcases List.mem_cons.mp h2 with e2 | m2
      · have h3 : ((tid, n1) : String × String) = (tid, n2) := e1.trans e2.symm
        exact (Prod.mk.inj h3).2
      · exfalso
        apply hnd.1
        have hx : tid ∈ rest.map Prod.fst :=
          List.mem_map.mpr ⟨(tid, n2), m2, rfl⟩
        have hp1 : p.1 = tid := (congrArg Prod.fst e1).symm
        rw [hp1]
        exact hx
    · rcases List.mem_cons.mp h2 with e2 | m2
      · exfalso
        apply hnd.1
        have hx : tid ∈ rest.map Prod.fst :=
          List.mem_map.mpr ⟨(tid, n1), m1, rfl⟩
        have hp1 : p.1 = tid := (congrArg Prod.fst e2).symm
        rw [hp1]
        exact hx
      · exact key_unique rest tid n1 n2 hnd.2 m1 m2

/-- C1: for a successful listing fetch, the token-list sync leaves the
`tokens` table holding exactly the union of the previously present ids
and the newly seen ids, with no duplicate primary keys, no row removed,
no name of an already-present token changed, and
`check_and_update_token_list` produces the same table as
`save_token_list`. -/
theorem sync_token_list_spec (table token_list : List (String × String))
    (hnodup : (table.map Prod.fst).Nodup) :
    (∀ tid, tid ∈ (save_token_list table token_list).map Prod.fst ↔
      (tid ∈ table.map Prod.fst ∨ tid ∈ token_list.map Prod.fst))
    ∧ ((save_token_list table token_list).map Prod.fst).Nodup
    ∧ (∀ row ∈ table, row ∈ save_token_list table token_list)
    ∧ (∀ tid name name2, (tid, name) ∈ table →
        (tid, name2) ∈ save_token_list table token_list → name2 = name)
    ∧ check_and_update_token_list table token_list
        = save_token_list table token_list := by
  have hnd : ((save_token_list table token_list).map Prod.fst).Nodup :=
    syncLoop_nodup token_list table hnodup
  refine ⟨?_, hnd, ?_, ?_, rfl⟩
  · intro tid
    constructor
    · intro h
      exact syncLoop_ids_subset token_list table h
    · intro h
      rcases h with h | h
      · exact syncLoop_ids_mono token_list table h
      · rcases List.mem_map.mp h with ⟨tok, htok, hx⟩
        rw [← hx]
        exact syncLoop_covers token_list table (fun i hi => hi) tok htok
  · intro row hrow
    exact mem_syncLoop_of_mem token_list table hrow
  · intro tid name name2 hmem hres
    exact key_unique _ tid name2 name hnd hres
      (mem_syncLoop_of_mem token_list table hmem)

/-- Witness for C1 at concrete inputs: syncing the table holding only
`btc` against a fetched list that repeats `btc` under a different name and
adds `eth` keeps the old `btc` row unchanged, adds `eth`, keeps the ids
duplicate-free, and never stores the conflicting name. -/
theorem sync_token_list_spec_witness :
    ("eth" ∈ (save_token_list [("btc", "Bitcoin")]
        [("btc", "BTC2"), ("eth", "Ethereum")]).map Prod.fst)
    ∧ ((save_token_list [("btc", "Bitcoin")]
        [("btc", "BTC2"), ("eth", "Ethereum")]).map Prod.fst).Nodup
    ∧ ("btc", "Bitcoin") ∈ save_token_list [("btc", "Bitcoin")]
        [("btc", "BTC2"), ("eth", "Ethereum")]
    ∧ ("btc", "BTC2") ∉ save_token_list [("btc", "Bitcoin")]
        [("btc", "BTC2"), ("eth", "Ethereum")] := by
  have h := sync_token_list_spec [("btc", "Bitcoin")]
    [("btc", "BTC2"), ("eth", "Ethereum")] (by decide)
  refine ⟨(h.1 "eth").mpr (Or.inr (by decide)), h.2.1,
    h.2.2.1 _ (by decide), fun hm => ?_⟩
  have := h.2.2.2.1 "btc" "Bitcoin" "BTC2" (by decide) hm
  exact absurd this (by decide)

/-- A row of the `token_volumes` table: `token_id`, `total_volume` (stored
verbatim, so possibly a number, the string `"null"`, or `None`), and
`date` in days (the column defaults to the current day). -/
structure VolumeRow where
  token_id : String
  total_volume : PyVal
  date : Int
deriving DecidableEq, Repr

/-- The database state: the `tokens` table and the `token_volumes` table. -/
structure DbState where
  tokens : List (String × String)
  token_volumes : List VolumeRow
deriving DecidableEq, Repr

/-- Embedding of `CoinGeckoAPI.delete_old_data` (src/main.py lines
243-258): `DELETE FROM token_volumes WHERE date < date(now, -21 days)`,
keeping exactly the rows with `now - 21 ≤ date`; it touches no other
table. -/
def delete_old_data (now : Int) (db : DbState) : DbState :=
  { tokens := db.tokens,
    token_volumes := db.token_volumes.filter (fun r => decide (now - 21 ≤ r.date)) }

/-- C5: `delete_old_data` removes exactly the `token_volumes` rows whose
date is strictly older than 21 days before now, retains every row inside
the window including a row dated exactly 21 days ago, and leaves the
`tokens` table unchanged. -/
theorem delete_old_data_spec (now : Int) (db : DbState) :
    (delete_old_data now db).tokens = db.tokens
    ∧ (∀ r : VolumeRow, r ∈ (delete_old_data now db).token_volumes ↔
        (r ∈ db.token_volumes ∧ ¬ r.date < now - 21))
    ∧ (∀ r ∈ db.token_volumes, r.date = now - 21 →
        r ∈ (delete_old_data now db).token_volumes) := by
  refine ⟨rfl, ?_, ?_⟩
  · intro r
    simp [delete_old_data, List.mem_filter, not_lt]
  · intro r hr hdate
    simp [delete_old_data, List.mem_filter, hr, hdate]

/-- Witness for C5 at a concrete state with now = 100: the row dated 78
(22 days old) is deleted, the rows dated 79 (exactly 21 days old) and 100
are retained, and the `tokens` table is untouched. -/
theorem delete_old_data_spec_witness :
    (delete_old_data 100
      ⟨[("btc", "Bitcoin")],
       [⟨"btc", PyVal.num 5, 78⟩, ⟨"btc", PyVal.num 6, 79⟩,
        ⟨"btc", PyVal.num 7, 100⟩]⟩).tokens = [("btc", "Bitcoin")]
    ∧ (⟨"btc", PyVal.num 5, 78⟩ : VolumeRow) ∉ (delete_old_data 100
      ⟨[("btc", "Bitcoin")],
       [⟨"btc", PyVal.num 5, 78⟩, ⟨"btc", PyVal.num 6, 79⟩,
        ⟨"btc", PyVal.num 7, 100⟩]⟩).token_volumes
    ∧ (⟨"btc", PyVal.num 6, 79⟩ : VolumeRow) ∈ (delete_old_data 100
      ⟨[("btc", "Bitcoin")],
       [⟨"btc", PyVal.num 5, 78⟩, ⟨"btc", PyVal.num 6, 79⟩,
        ⟨"btc", PyVal.num 7, 100⟩]⟩).token_volumes
    ∧ (⟨"btc", PyVal.num 7, 100⟩ : VolumeRow) ∈ (delete_old_data 100
      ⟨[("btc", "Bitcoin")],
       [⟨"btc", PyVal.num 5, 78⟩, ⟨"btc", PyVal.num 6, 79⟩,
        ⟨"btc", PyVal.num 7, 100⟩]⟩).token_volumes := by
  have h := delete_old_data_spec 100
    ⟨[("btc", "Bitcoin")],
     [⟨"btc", PyVal.num 5, 78⟩, ⟨"btc", PyVal.num 6, 79⟩,
      ⟨"btc", PyVal.num 7, 100⟩]⟩
  refine ⟨h.1, fun hm => ?_, ?_, ?_⟩
  · have := (h.2.1 ⟨"btc", PyVal.num 5, 78⟩).mp hm
    exact absurd (by decide : (78 : Int) < 100 - 21) this.2
  · exact h.2.2 ⟨"btc", PyVal.num 6, 79⟩ (by decide) (by decide)
  · exact (h.2.1 ⟨"btc", PyVal.num 7, 100⟩).mpr ⟨by decide, by decide⟩

/-- Python multiplication `x * 2` on a stored value: numbers double,
strings repeat (so the sentinel `"null"` becomes `"nullnull"`), and `None`
raises a TypeError. -/
def pyMul2 : PyVal → Except String PyVal
  | PyVal.num n => Except.ok (PyVal.num (n * 2))
  | PyVal.str s => Except.ok (PyVal.str (s ++ s))
  | PyVal.none => Except.error "TypeError: unsupported operand type for *"

/-- Python comparison `a > b`: defined between two numbers, a TypeError
between mixed types. -/
def pyGT : PyVal → PyVal → Except String Bool
  | PyVal.num a, PyVal.num b => Except.ok (decide (b < a))
  | _, _ => Except.error "TypeError: unorderable types"

/-- The rows read by the yesterday lookup in `update_token_volumes`
(src/main.py lines 219-223): `SELECT total_volume FROM token_volumes WHERE
token_id = ? AND date = date(now, -1 day)`. -/
def yesterday_rows (rows : List VolumeRow) (tid : String) (today : Int) :
    List VolumeRow :=
  rows.filter (fun r => r.token_id == tid && r.date == today - 1)

/-- Embedding of the spike heuristic of `update_token_volumes`
(src/main.py lines 218-231): `yesterdays_volume` is `result[0][0]` when
the yesterday query returned rows and the Python integer 0 otherwise, and
the flag is printed when `token_volume > yesterdays_volume * 2`. -/
def spike_check (rows : List VolumeRow) (tid : String) (today : Int)
    (token_volume : PyVal) : Except String Bool :=
  let result := (yesterday_rows rows tid today).map VolumeRow.total_volume
  let yesterdays_volume := match result with
    | [] => PyVal.num 0
    | v :: _ => v
  match pyMul2 yesterdays_volume with
  | Except.error e => Except.error e
  | Except.ok doubled => pyGT token_volume doubled

/-- C6: with a numeric fetched volume `t`, the spike flag fires exactly
when `t` strictly exceeds twice the stored yesterday volume, a missing
yesterday row counting as 0; in particular a yesterday volume of 0 (or an
absent yesterday row) together with any positive `t` fires the flag. -/
theorem spike_flag_spec (rows : List VolumeRow) (tid : String) (today : Int)
    (t y : Int) (r : VolumeRow) (rest : List VolumeRow) :
    (yesterday_rows rows tid today = [] →
      spike_check rows tid today (PyVal.num t)
        = Except.ok (decide (0 * 2 < t)))
    ∧ (yesterday_rows rows tid today = r :: rest →
        r.total_volume = PyVal.num y →
        spike_check rows tid today (PyVal.num t)
          = Except.ok (decide (y * 2 < t)))
    ∧ (0 < t → decide ((0 : Int) * 2 < t) = true) := by
  refine ⟨?_, ?_, ?_⟩
  · intro h
    simp [spike_check, h, pyMul2, pyGT]
  · intro h hvol
    simp [spike_check, h, hvol, pyMul2, pyGT]
  · intro h
    simpa using h

/-- Witness for C6 at concrete inputs: with no yesterday row and volume 7
today the flag fires, and with yesterday volume 4 the flag fires for 9 but
not for 8. -/
theorem spike_flag_spec_witness :
    spike_check [] "btc" 10 (PyVal.num 7) = Except.ok true
    ∧ spike_check [⟨"btc", PyVal.num 4, 9⟩] "btc" 10 (PyVal.num 9)
        = Except.ok true
    ∧ spike_check [⟨"btc", PyVal.num 4, 9⟩] "btc" 10 (PyVal.num 8)
        = Except.ok false := by
  have h1 := spike_flag_spec [] "btc" 10 7 0 ⟨"btc", PyVal.num 0, 0⟩ []
  have h2 := spike_flag_spec [⟨"btc", PyVal.num 4, 9⟩] "btc" 10 9 4
    ⟨"btc", PyVal.num 4, 9⟩ []
  have h3 := spike_flag_spec [⟨"btc", PyVal.num 4, 9⟩] "btc" 10 8 4
    ⟨"btc", PyVal.num 4, 9⟩ []
  refine ⟨?_, ?_, ?_⟩
  · rw [h1.1 (by decide)]
    norm_num
  · rw [h2.2.1 (by decide) rfl]
    norm_num
  · rw [h3.2.1 (by decide) rfl]
    norm_num

/-- Outcome of one `INSERT INTO token_volumes (token_id, total_volume)`
in `save_token_volumes`: success, or one of the two caught sqlite errors
(`IntegrityError`, `OperationalError`), each only logged. -/
inductive InsertOutcome where
  | ok
  | integrityError
  | operationalError
deriving DecidableEq, Repr

/-- Observable outcome of `save_token_volumes`: the insert attempts made
(token id and the value passed verbatim as `total_volume`, in loop
order), the attempts whose insert succeeded, and the Python return value
(`Option.none` models returning `None`). -/
structure SaveResult where
  attempts : List (String × PyVal)
  inserted : List (String × PyVal)
  ret : Option String
deriving DecidableEq, Repr

/-- The per-token loop of `save_token_volumes` (src/main.py lines
159-170): each token id is fetched once and one insert of the fetched
value is attempted; a caught `IntegrityError` or `OperationalError` only
skips that one row and the loop continues. `fetch` gives the value
`fetch_token_volume` returned for each id and `outcome` the storage
result of each insert. -/
def save_loop (fetch : String → PyVal) (outcome : String → InsertOutcome) :
    List String → List (String × PyVal) × List (String × PyVal)
  | [] => ([], [])
  | tid :: rest =>
    let volume := fetch tid
    let next := save_loop fetch outcome rest
    match outcome tid with
    | InsertOutcome.ok => ((tid, volume) :: next.1, (tid, volume) :: next.2)
    | InsertOutcome.integrityError => ((tid, volume) :: next.1, next.2)
    | InsertOutcome.operationalError => ((tid, volume) :: next.1, next.2)

/-- Embedding of `CoinGeckoAPI.save_token_volumes` (src/main.py lines
148-176): when `get_token_list` is empty the function prints a skip
message and returns `None` at once; otherwise it runs the insert loop and
returns the string `Token volume data saved.`. -/
def save_token_volumes (token_list : List String) (fetch : String → PyVal)
    (outcome : String → InsertOutcome) : SaveResult :=
  if token_list.length = 0 then
    { attempts := [], inserted := [], ret := Option.none }
  else
    { attempts := (save_loop fetch outcome token_list).1,
      inserted := (save_loop fetch outcome token_list).2,
      ret := some "Token volume data saved." }

theorem save_loop_attempts (fetch : String → PyVal)
    (outcome : String → InsertOutcome) :
    ∀ tl : List String,
    (save_loop fetch outcome tl).1 = tl.map (fun tid => (tid, fetch tid))
  | [] => rfl
  | tid :: rest => by
    have ih := save_loop_attempts fetch outcome rest
    cases h : outcome tid <;> simp [save_loop, h, ih]

theorem save_loop_inserted (fetch : String → PyVal)
    (outcome : String → InsertOutcome) :
    ∀ (tl : List String) (tid : String), tid ∈ tl →
    outcome tid = InsertOutcome.ok →
    (tid, fetch tid) ∈ (save_loop fetch outcome tl).2
  | [], _, hmem, _ => absurd hmem (List.not_mem_nil _)
  | t :: rest, tid, hmem, hok => by
    rcases List.mem_cons.mp hmem with rfl | hr
    · cases h : outcome tid with
      | ok => simp [save_loop, h]
      | integrityError => exact absurd (h.symm.trans hok) (by simp)
      | operationalError => exact absurd (h.symm.trans hok) (by simp)
    · have ih := save_loop_inserted fetch outcome rest tid hr hok
      cases h : outcome t <;> simp [save_loop, h, ih]

/-- Counterexample to C7 as stated: on an empty stored token list,
`save_token_volumes` returns Python `None`, not the completion string. -/
theorem save_token_volumes_empty_cex :
    (save_token_volumes [] (fun _ => PyVal.none)
        (fun _ => InsertOutcome.ok)).ret
      ≠ some "Token volume data saved." := by
  simp [save_token_volumes]

/-- C7 as amended: for a non-empty stored token list,
`save_token_volumes` attempts exactly one insert per stored token id, in
order, whatever the per-row storage outcomes (caught integrity and
operational errors only skip their own row), and returns the fixed string
`Token volume data saved.`; on an empty stored token list it attempts no
insert and returns `None` after logging a skip message. -/
theorem save_token_volumes_amended (token_list : List String)
    (fetch : String → PyVal) (outcome : String → InsertOutcome)
    (h : token_list ≠ []) :
    (save_token_volumes token_list fetch outcome).attempts
      = token_list.map (fun tid => (tid, fetch tid))
    ∧ (save_token_volumes token_list fetch outcome).ret
      = some "Token volume data saved."
    ∧ (save_token_volumes [] fetch outcome).attempts = []
    ∧ (save_token_volumes [] fetch outcome).ret = Option.none := by
  have hlen : ¬ token_list.length = 0 := by
    intro h0
    exact h (List.length_eq_zero.mp h0)
  refine ⟨?_, ?_, rfl, rfl⟩
  · simp [save_token_volumes, hlen, save_loop_attempts]
  · simp [save_token_volumes, hlen]

/-- Witness for C7 at concrete inputs: two tokens, the first insert
failing with an integrity error, still give one attempt per token and the
completion string. -/
theorem save_token_volumes_amended_witness :
    (save_token_volumes ["btc", "eth"] (fun _ => PyVal.num 5)
        (fun tid => if tid = "btc" then InsertOutcome.integrityError
          else InsertOutcome.ok)).attempts
      = [("btc", PyVal.num 5), ("eth", PyVal.num 5)]
    ∧ (save_token_volumes ["btc", "eth"] (fun _ => PyVal.num 5)
        (fun tid => if tid = "btc" then InsertOutcome.integrityError
          else InsertOutcome.ok)).ret
      = some "Token volume data saved." := by
  have h := save_token_volumes_amended ["btc", "eth"] (fun _ => PyVal.num 5)
    (fun tid => if tid = "btc" then InsertOutcome.integrityError
      else InsertOutcome.ok) (by simp)
  exact ⟨h.1, h.2.1⟩

/-- C10: `save_token_volumes` attempts the insert for every stored token
id with the fetched value passed verbatim as `total_volume` — including
the error value `None` and the sentinel string `"null"` — and a
successful insert stores that value as the new row; a failed or no-data
fetch is never skipped. -/
theorem save_token_volumes_stores_verbatim (token_list : List String)
    (fetch : String → PyVal) (outcome : String → InsertOutcome)
    (tid : String) (hmem : tid ∈ token_list) :
    (tid, fetch tid) ∈ (save_token_volumes token_list fetch outcome).attempts
    ∧ (outcome tid = InsertOutcome.ok →
        (tid, fetch tid) ∈ (save_token_volumes token_list fetch outcome).inserted) := by
  have hlen : ¬ token_list.length = 0 := by
    intro h0
    rw [List.length_eq_zero.mp h0] at hmem
    exact absurd hmem (List.not_mem_nil _)
  constructor
  · rw [show (save_token_volumes token_list fetch outcome).attempts
        = (save_loop fetch outcome token_list).1 by simp [save_token_volumes, hlen]]
    rw [save_loop_attempts]
    exact List.mem_map.mpr ⟨tid, hmem, rfl⟩
  · intro hok
    rw [show (save_token_volumes token_list fetch outcome).inserted
        = (save_loop fetch outcome token_list).2 by simp [save_token_volumes, hlen]]
    exact save_loop_inserted fetch outcome token_list tid hmem hok

/-- Witness for C10 at concrete inputs: a failed fetch (`None`) and a
no-data fetch (the string `"null"`) are both attempted and both stored. -/
theorem save_token_volumes_stores_verbatim_witness :
    (("a", PyVal.none) ∈ (save_token_volumes ["a", "b"]
      (fun tid => if tid = "a" then PyVal.none else PyVal.str "null")
      (fun _ => InsertOutcome.ok)).inserted)
    ∧ (("b", PyVal.str "null") ∈ (save_token_volumes ["a", "b"]
      (fun tid => if tid = "a" then PyVal.none else PyVal.str "null")
      (fun _ => InsertOutcome.ok)).inserted) := by
  have ha := save_token_volumes_stores_verbatim ["a", "b"]
    (fun tid => if tid = "a" then PyVal.none else PyVal.str "null")
    (fun _ => InsertOutcome.ok) "a" (by simp)
  have hb := save_token_volumes_stores_verbatim ["a", "b"]
    (fun tid => if tid = "a" then PyVal.none else PyVal.str "null")
    (fun _ => InsertOutcome.ok) "b" (by simp)
  exact ⟨by simpa using ha.2 rfl, by simpa using hb.2 rfl⟩

/-- Python subscript `row[key]` with a string key on a sqlite3 row:
`conn.execute(...).fetchall()` without a row factory yields plain tuples,
and subscripting a tuple with a string always raises a TypeError, whatever
the tuple holds. -/
def pyTupleGetStr (_row : List PyVal) (_key : String) : Except String PyVal :=
  Except.error "TypeError: tuple indices must be integers or slices, not str"

/-- The per-row loop of `update_token_volumes` (src/main.py lines
199-236). Each iteration begins with `self.fetch_token_volume(token[
\x27id\x27])`, outside the try block (which catches only sqlite3 errors);
`token` is a plain tuple, so this subscript raises at once. The remainder
of the body — the UPDATE (whose parameters are bound in swapped order),
the conditional INSERT, and the yesterday comparison modelled by
`spike_check` — sits behind this subscript, so the recursive call in the
ok branch is unreachable: `pyTupleGetStr` never returns `Except.ok`. -/
def update_loop : List (List PyVal) → Except String Unit
  | [] => Except.ok ()
  | token :: rest =>
    match pyTupleGetStr token "id" with
    | Except.error e => Except.error e
    | Except.ok _tid => update_loop rest

/-- Embedding of `CoinGeckoAPI.update_token_volumes` (src/main.py lines
188-241). `tokens` is the fetchall() result of `get_token_volume`
(src/main.py lines 178-186), which issues `SELECT id FROM token_volumes`
and returns rows as plain tuples; the model grants the schema an `id`
column (were it absent, that SELECT itself would raise an uncaught
`sqlite3.OperationalError`, crashing even earlier). On an empty result the
function returns `None` at once; otherwise it enters the per-row loop. -/
def update_token_volumes (tokens : List (List PyVal)) : Except String Unit :=
  match tokens with
  | [] => Except.ok ()
  | token :: rest => update_loop (token :: rest)

/-- C9: whenever the `token_volumes` table is non-empty,
`update_token_volumes` raises an uncaught TypeError before completing:
the loop subscripts each tuple row with the string key `id`, and that
first access sits outside the try block that catches only sqlite3
errors. -/
theorem update_token_volumes_raises (tokens : List (List PyVal))
    (h : tokens ≠ []) :
    update_token_volumes tokens
      = Except.error "TypeError: tuple indices must be integers or slices, not str" := by
  cases tokens with
  | nil => exact absurd rfl h
  | cons token rest => rfl

/-- Witness for C9 at a concrete input: two stored rows crash the
refresh. -/
theorem update_token_volumes_raises_witness :
    update_token_volumes [[PyVal.str "ethereum"], [PyVal.str "bitcoin"]]
      = Except.error "TypeError: tuple indices must be integers or slices, not str" :=
  update_token_volumes_raises [[PyVal.str "ethereum"], [PyVal.str "bitcoin"]]
    (by simp)

/-- C4, evaluated at the failing input: with a single row for `bitcoin`
on record, `update_token_volumes` raises an uncaught TypeError instead of
updating the row for today with the freshly fetched volume or inserting
one. Even were the subscript fixed, the UPDATE statement binds its
parameters in swapped order — it sets `total_volume` to the previously
stored value and matches `token_id` against the freshly fetched volume —
and its zero-rows test reads `conn.total_changes`, which counts all
changes on the connection rather than those of the last statement. -/
theorem update_token_volumes_c4_failing_input :
    update_token_volumes [[PyVal.str "bitcoin"]]
      = Except.error "TypeError: tuple indices must be integers or slices, not str" :=
  rfl
